import Mathlib

/-!
Verification of the reva storage gateway (internal/grpc/services/gateway/storageprovider.go)
and the json OCM provider authorizer (pkg/ocm/provider/authorizer/json/json.go).

The gateway is embedded shallowly: every outbound RPC (registry lookup, provider call,
reference stat) is an oracle carried in an `Env` record, and each operation returns,
next to its Go result, the list of oracle calls it performed, so that statements about
forwarding and about the number of hops are expressible.  Go panics are a distinct
result constructor, and `(nil, err)` Go returns are the `err` constructor.
-/

namespace Reva

/-! ## String helpers mirroring the Go standard library calls used by the source -/

/-- Characters of a string with the leading and trailing slash runs removed,
mirroring strings.Trim(p, "/") for the one-character cutset used by the source. -/
def trimSlashes (s : String) : List Char :=
  ((s.data.dropWhile (fun c => c = '/')).reverse.dropWhile (fun c => c = '/')).reverse

/-- strings.SplitN(s, "/", n) on a character list: at most `n` fields, the last field
keeps the unsplit remainder.  SplitN of the empty string yields one empty field. -/
def goSplitN (n : Nat) : List Char → List (List Char)
  | [] => [[]]
  | c :: rest =>
    if n ≤ 1 then [c :: rest]
    else if c = '/' then [] :: goSplitN (n - 1) rest
    else
      match goSplitN n rest with
      | [] => [[c]]
      | h :: t => (c :: h) :: t

/-- strings.SplitN(s, "/", n) on strings. -/
def goSplitNStr (n : Nat) (s : String) : List String :=
  (goSplitN n s.data).map fun l => String.mk l

/-- Split a character list on every slash (strings.Split semantics). -/
def splitAllSlash : List Char → List (List Char)
  | [] => [[]]
  | c :: rest =>
    if c = '/' then [] :: splitAllSlash rest
    else
      match splitAllSlash rest with
      | [] => [[c]]
      | h :: t => (c :: h) :: t

/-- strings.HasPrefix. -/
def goHasPre (s pre : String) : Bool :=
  pre.data.isPrefixOf s.data

/-- strings.TrimPrefix: drop `pre` when it is a prefix of `s`, otherwise return `s`. -/
def goTrimPre (s pre : String) : String :=
  if goHasPre s pre then String.mk (s.data.drop pre.data.length) else s

/-- Join path components with slashes (strings.Join with separator "/"). -/
def joinSlash : List String → String
  | [] => ""
  | [s] => s
  | s :: rest => s ++ "/" ++ joinSlash rest

/-- One step of the lexical cleaning loop of path.Clean: push a component onto the
stack of kept components (held in reverse). -/
def cleanStep (rooted : Bool) (acc : List String) (comp : String) : List String :=
  if comp = "" ∨ comp = "." then acc
  else if comp = ".." then
    match acc with
    | [] => if rooted then [] else [".."]
    | top :: rest => if top = ".." then comp :: acc else rest
  else comp :: acc

/-- path.Clean: lexically simplify a slash-separated path (empty components, ".",
".." handling; an empty result collapses to "/" when rooted, "." otherwise). -/
def pathClean (s : String) : String :=
  if s = "" then "."
  else
    let rooted := goHasPre s "/"
    let comps := (splitAllSlash s.data).map fun l => String.mk l
    let kept := (comps.foldl (cleanStep rooted) []).reverse
    let body := joinSlash kept
    if rooted then (if body = "" then "/" else "/" ++ body)
    else (if body = "" then "." else body)

/-- path.Join: drop leading empty components, join the rest with slashes, and Clean;
all components empty gives "". -/
def pathJoin (elems : List String) : String :=
  match elems.dropWhile (fun e => e = "") with
  | [] => ""
  | es => pathClean (joinSlash es)

/-! ## Data model (cs3 storage provider API types, as used by the gateway) -/

/-- cs3 storage provider Reference: oneof absolute path or (storage id, opaque id). -/
inductive Ref where
  | byPath (p : String)
  | byId (storageId opaqueId : String)
  deriving DecidableEq, Repr

/-- Reference.GetPath: the path when the oneof holds a path, "" otherwise. -/
def Ref.getPath : Ref → String
  | .byPath p => p
  | .byId _ _ => ""

/-- cs3 ResourceType (the values the gateway inspects). -/
inductive ResourceType where
  | invalid
  | file
  | container
  | reference
  | symlink
  deriving DecidableEq, Repr

/-- cs3 ResourceInfo, restricted to the fields the gateway reads or writes; the
remaining provider-owned fields are represented by `etag`, `size` and `mtime` so
that frame statements (all fields but the path come from the target) have content. -/
structure ResourceInfo where
  type : ResourceType
  path : String
  target : String
  etag : String
  size : Nat
  mtime : Int
  deriving DecidableEq, Repr

instance : Inhabited ResourceInfo :=
  ⟨{ type := .invalid, path := "", target := "", etag := "", size := 0, mtime := 0 }⟩

/-- rpc status codes used by the gateway. -/
inductive Code where
  | ok
  | notFound
  | permissionDenied
  | invalidArgument
  | unimplemented
  | internal
  | notSupported
  deriving DecidableEq, Repr

/-- A structured status: code plus message. -/
structure Status where
  code : Code
  message : String
  deriving DecidableEq, Repr

/-- Modelled from the spec: the status helper package (pkg/rgrpc/status) is not under
src; spec section 7 states every gateway operation returns a structured status
(code + message), and the constructors below carry the code named by the source call
site together with the message string the call site passes. -/
def Status.newOK : Status := ⟨.ok, ""⟩

/-- Modelled from the spec: see `Status.newOK`. -/
def Status.newNotFound (msg : String) : Status := ⟨.notFound, msg⟩

/-- Modelled from the spec: see `Status.newOK`. -/
def Status.newInternal (msg : String) : Status := ⟨.internal, msg⟩

/-- Modelled from the spec: see `Status.newOK`. -/
def Status.newInvalidArg (msg : String) : Status := ⟨.invalidArgument, msg⟩

/-- Modelled from the spec: see `Status.newOK`. -/
def Status.newUnimplemented (msg : String) : Status := ⟨.unimplemented, msg⟩

/-- Gateway configuration (the fields of svc.c read by the embedded code). -/
structure Config where
  shareFolder : String
  dataGatewayEndpoint : String
  transferExpires : Int
  transferSharedSecret : String
  deriving DecidableEq, Repr

/-! ## Path classifier -/

/-- getSharedFolder: path.Join of the hardcoded home "/home" and the configured
share folder name. -/
def getSharedFolder (cfg : Config) : String :=
  pathJoin ["/home", cfg.shareFolder]

/-- inSharedFolder: the path has the shared folder string as a prefix. -/
def inSharedFolder (cfg : Config) (p : String) : Bool :=
  goHasPre p (getSharedFolder cfg)

/-- splitPath: Trim slashes and SplitN into at most 4 segments. -/
def splitPath (p : String) : List String :=
  goSplitNStr 4 (String.mk (trimSlashes p))

/-- split: segment count and share-folder check of the classifier.  The source
panics when fewer than 2 segments are present; every gateway call site guards
split behind inSharedFolder, under which (for a well-formed share folder name)
the trimmed path always has at least 2 segments, so that branch is totalised to
false here. -/
def split (cfg : Config) (p : String) (i : Nat) : Bool :=
  let parts := splitPath p
  decide (2 ≤ parts.length) &&
    (parts.getD 1 "" == cfg.shareFolder) &&
    decide (parts.length = i) &&
    !(parts.getD (i - 1) "" == "")

/-- isSharedFolder: exactly 2 segments, e.g. /home/MyShares. -/
def isSharedFolder (cfg : Config) (p : String) : Bool := split cfg p 2

/-- isShareName: exactly 3 segments, e.g. /home/MyShares/photos. -/
def isShareName (cfg : Config) (p : String) : Bool := split cfg p 3

/-- isShareChild: exactly 4 segments, e.g. /home/MyShares/photos/Ibiza/beach.png. -/
def isShareChild (cfg : Config) (p : String) : Bool := split cfg p 4

/-- splitShare: share name = join of the first three segments, share child = the
remainder.  The source panics when the path does not have exactly 4 segments; all
call sites guard it behind isShareChild, which forces 4 segments. -/
def splitShare (p : String) : String × String :=
  let parts := splitPath p
  (pathJoin ["/", parts.getD 0 "", parts.getD 1 "", parts.getD 2 ""],
   pathJoin ["/", parts.getD 3 ""])

/-- The shape a gateway operation sees for a path: the dispatch chain common to the
share-aware operations (plain paths are those outside the shared folder prefix;
inside it the three segment-count shapes are tried in order; anything else falls
through to the assertion branch of the source, `unknown` here). -/
inductive Shape where
  | plain
  | folder
  | name
  | child
  | unknown
  deriving DecidableEq, Repr

/-- classify: the dispatch chain used by Stat, ListContainer, Delete and the
upload and download and container creation entry points. -/
def classify (cfg : Config) (p : String) : Shape :=
  if inSharedFolder cfg p = false then .plain
  else if isSharedFolder cfg p = true then .folder
  else if isShareName cfg p = true then .name
  else if isShareChild cfg p = true then .child
  else .unknown

/-! ## Results, traces and the environment of outbound calls -/

/-- A Go call result: a value with nil error, a nil value with an error, or a panic. -/
inductive GoRes (α : Type) where
  | ok (v : α)
  | err (e : String)
  | panicked (m : String)
  deriving DecidableEq, Repr

/-- Fold an (res, err) pair coming back from a downstream call into a GoRes. -/
def GoRes.ofExcept {α : Type} : Except String α → GoRes α
  | .ok v => .ok v
  | .error e => .err e

/-- The outbound calls a gateway operation can make: gateway-level stats, registry
lookups, and per-operation forwards to a storage provider. -/
inductive Call where
  | statCall (ref : Ref)
  | findProviderCall (ref : Ref)
  | provMove (addr : String) (src dst : Ref)
  | provDelete (ref : Ref)
  | provCreateContainer (ref : Ref)
  | provDownload (ref : Ref)
  | provUpload (ref : Ref)
  deriving DecidableEq, Repr

/-- True for the calls that forward an operation to a storage provider (as opposed
to statting or registry lookups). -/
def Call.isForward : Call → Bool
  | .statCall _ => false
  | .findProviderCall _ => false
  | _ => true

/-- The result of a gateway operation: the trace of outbound calls, and the Go
result (response with nil error, nil with error, or panic). -/
abbrev OpResult (α : Type) := List Call × GoRes α

/-- Errors of svc.findProvider, split by the errtypes.IsNotFound test the callers
perform. -/
inductive FindError where
  | notFound (m : String)
  | other (m : String)
  deriving DecidableEq, Repr

/-- Provider handle returned by the storage registry (the address is the only field
the embedded code reads). -/
structure ProviderInfo where
  address : String
  deriving DecidableEq, Repr

/-- Provider response to Stat. -/
structure StatResponse where
  status : Status
  info : ResourceInfo
  deriving DecidableEq, Repr

/-- Provider response to CreateContainer. -/
structure CreateContainerResponse where
  status : Status
  deriving DecidableEq, Repr

/-- Provider response to Delete. -/
structure DeleteResponse where
  status : Status
  deriving DecidableEq, Repr

/-- Provider response to Move. -/
structure MoveResponse where
  status : Status
  deriving DecidableEq, Repr

/-- Storage provider response to InitiateFileDownload. -/
structure StorageDownloadResponse where
  status : Status
  downloadEndpoint : String
  expose : Bool
  deriving DecidableEq, Repr

/-- Storage provider response to InitiateFileUpload. -/
structure StorageUploadResponse where
  status : Status
  uploadEndpoint : String
  expose : Bool
  availableChecksums : List String
  deriving DecidableEq, Repr

/-- Transfer token claims (transferClaims of the source: jwt.StandardClaims plus the
target custom claim; the standard fields the source sets are audience, expiry and
issued-at). -/
structure TransferClaims where
  target : String
  audience : String
  expiresAt : Int
  issuedAt : Int
  deriving DecidableEq, Repr

/-- A signed bearer token: the algorithm label of the header, the claims of the
payload, and the message authentication tag over the encoded payload. -/
structure Token where
  alg : String
  claims : TransferClaims
  sig : String
  deriving DecidableEq, Repr

/-- Gateway response to InitiateFileDownload (endpoint plus optional token). -/
structure GwDownloadResponse where
  status : Status
  downloadEndpoint : String
  token : Option Token
  deriving DecidableEq, Repr

/-- Gateway response to InitiateFileUpload. -/
structure GwUploadResponse where
  status : Status
  uploadEndpoint : String
  token : Option Token
  availableChecksums : List String
  deriving DecidableEq, Repr

/-- The environment of a request: the downstream collaborators of the gateway,
each an oracle at the granularity of the helper the source calls.  `stat` is the
result of svc.stat (registry find plus provider Stat); `findProvider` is the result
of svc.findProvider; `poolGet` is the provider client pool keyed by address; the
`client*` fields are the provider-side RPCs; `parseURL` models net/url.Parse
followed by URL.String (none on a malformed URL); `macHS256` is the HMAC-SHA256
primitive of the jwt library (secret and signing input to tag); `nowExp` and
`nowIat` are the two wall-clock reads sign performs. -/
structure Env where
  stat : Ref → Except String StatResponse
  findProvider : Ref → Except FindError ProviderInfo
  poolGet : String → Except String Unit
  clientMove : String → Ref → Ref → Except String MoveResponse
  clientDelete : Ref → Except String DeleteResponse
  clientCreateContainer : Ref → Except String CreateContainerResponse
  clientDownload : Ref → Except String StorageDownloadResponse
  clientUpload : Ref → Except String StorageUploadResponse
  parseURL : String → Option String
  macHS256 : String → String → String
  nowExp : Int
  nowIat : Int

/-- svc.find: locate the provider for a reference and take its pooled client; a
pool failure is a wrapped (non-IsNotFound) error. -/
def findClient (env : Env) (ref : Ref) : Except FindError ProviderInfo :=
  match env.findProvider ref with
  | .error e => .error e
  | .ok p =>
    match env.poolGet p.address with
    | .error e => .error (.other e)
    | .ok _ => .ok p

/-- svc.getPath: the path of a reference; a by-id reference with a non-empty opaque
id is statted, any other pathless reference is invalid. -/
def getPathR (env : Env) (ref : Ref) : List Call × Except String String :=
  if ref.getPath ≠ "" then ([], .ok ref.getPath)
  else
    match ref with
    | .byId _ opaqueId =>
      if opaqueId ≠ "" then
        match env.stat ref with
        | .error e => ([.statCall ref], .error ("gateway: error stating ref:" ++ e))
        | .ok res =>
          if res.status.code = .ok then ([.statCall ref], .ok res.info.path)
          else ([.statCall ref], .error "gateway: status error")
      else ([], .error "gateway: ref is invalid")
    | .byPath _ => ([], .error "gateway: ref is invalid")

/-! ## Reference resolver -/

/-- Valid URI scheme characters after the first (net/url getScheme). -/
def isSchemeChar (c : Char) : Bool :=
  c.isAlphanum || c = '+' || c = '-' || c = '.'

/-- A valid URI scheme: a letter followed by scheme characters. -/
def validScheme : List Char → Bool
  | [] => false
  | c :: rest => c.isAlpha && rest.all isSchemeChar

/-- Scheme and opaque part of a URI as net/url.Parse computes them: the scheme is
the valid-scheme segment before the first colon (empty when there is none), and the
opaque part is what follows the colon when it is not a slash-started path. -/
def splitScheme (s : String) : String × String :=
  let pre := s.data.takeWhile (fun c => c ≠ ':')
  if pre.length = s.data.length then ("", s)
  else
    let rest := s.data.drop (pre.length + 1)
    if validScheme pre then
      (String.mk pre, if rest.head? = some '/' then "" else String.mk rest)
    else ("", s)

/-- handleCS3Ref: split the opaque part into storage id and opaque id, perform
exactly one gateway stat on that id, and reject a target that is itself of type
reference. -/
def handleCS3Ref (env : Env) (opq : String) : List Call × GoRes ResourceInfo :=
  let parts := goSplitNStr 2 opq
  if parts.length < 2 then
    ([], .err ("gateway: cs3 ref does not follow the layout storageid/opaqueid:" ++ opq))
  else
    let ref := Ref.byId (parts.getD 0 "") (parts.getD 1 "")
    match env.stat ref with
    | .error e => ([.statCall ref], .err ("gateway: error calling stat:" ++ e))
    | .ok res =>
      if res.status.code ≠ .ok then
        ([.statCall ref], .err "gateway: error stating target reference")
      else if res.info.type = .reference then
        ([.statCall ref], .err "gateway: error the target of a reference cannot be another reference")
      else ([.statCall ref], .ok res.info)

/-- handleRef: dispatch on the scheme of the target URI; only cs3 is supported. -/
def handleRef (env : Env) (targetURI : String) : List Call × GoRes ResourceInfo :=
  let sp := splitScheme targetURI
  if sp.1 = "cs3" then handleCS3Ref env sp.2
  else ([], .err ("gateway: no reference handler for scheme:" ++ sp.1))

/-- checkRef: resolve a resource of type reference through its target URI; calling
it on a non-reference is an assertion failure of the source (a panic). -/
def checkRef (env : Env) (ri : ResourceInfo) : List Call × GoRes ResourceInfo :=
  if ri.type ≠ .reference then
    ([], .panicked ("gateway: calling checkRef on a non reference type:" ++ ri.path))
  else if ri.target = "" then
    ([], .err "gateway: ref target is an empty uri")
  else handleRef env ri.target

/-! ## Transfer signer -/

/-- Injective textual encoding of the claims (the JWT payload). -/
def encodeClaims (c : TransferClaims) : String :=
  "exp:" ++ toString c.expiresAt ++ ";aud:" ++ c.audience ++
    ";iat:" ++ toString c.issuedAt ++ ";target:" ++ c.target

/-- svc.sign: build the transfer claims (expiry = first clock read plus the
configured TTL in seconds, audience "reva", issued-at = second clock read, target
as given) and sign them with HMAC-SHA256 over the configured shared secret. -/
def sign (cfg : Config) (mac : String → String → String) (nowExp nowIat : Int)
    (target : String) : Token :=
  let claims : TransferClaims :=
    { target := target
      audience := "reva"
      expiresAt := nowExp + cfg.transferExpires
      issuedAt := nowIat }
  { alg := "HS256", claims := claims, sig := mac cfg.transferSharedSecret (encodeClaims claims) }

/-- Modelled from the spec: the data gateway that verifies transfer tokens is not
under src; spec sections 6 and 8 say a token validates under the same shared secret
with HMAC-SHA256 and decodes to its claims.  Verification checks the algorithm
label and recomputes the tag over the encoded payload with the given secret,
returning the claims on a match. -/
def verifyToken (mac : String → String → String) (secret : String) (t : Token) :
    Option TransferClaims :=
  if t.alg = "HS256" ∧ t.sig = mac secret (encodeClaims t.claims) then some t.claims else none

/-- Wrap a downstream (res, err) pair, prefixing the error as errors.Wrap does. -/
def GoRes.ofExceptWrap {α : Type} (msg : String) : Except String α → GoRes α
  | .ok v => .ok v
  | .error e => .err (msg ++ e)

/-! ## Gateway operations -/

/-- svc.stat is the oracle `env.stat`; svc.Stat is the share-aware entry point:
plain paths and the share folder itself are statted as is; a share name is statted,
required to be a reference (assertion), resolved, and returned with the resolved
info under the path of the first stat response; a share child resolves the share
name and re-enters stat on the rewritten path; anything else inside the shared
folder is an assertion failure. -/
def gwStat (cfg : Config) (env : Env) (ref : Ref) : OpResult StatResponse :=
  match getPathR env ref with
  | (tr, .error _) =>
    (tr, .ok ⟨Status.newInternal "gateway: error getting path for ref", default⟩)
  | (tr, .ok p) =>
    if inSharedFolder cfg p = false then
      (tr ++ [.statCall ref], GoRes.ofExcept (env.stat ref))
    else if isSharedFolder cfg p = true then
      (tr ++ [.statCall ref], GoRes.ofExcept (env.stat ref))
    else if isShareName cfg p = true then
      match env.stat ref with
      | .error _ =>
        (tr ++ [.statCall ref], .ok ⟨Status.newInternal "gateway: error stating", default⟩)
      | .ok res =>
        if res.status.code ≠ .ok then
          (tr ++ [.statCall ref], .ok ⟨Status.newInternal "gateway: error stating", default⟩)
        else if res.info.type ≠ .reference then
          (tr ++ [.statCall ref],
           .panicked ("gateway: a share name must be of type reference: ref:" ++ res.info.path))
        else
          match checkRef env res.info with
          | (tr2, .err _) =>
            (tr ++ [.statCall ref] ++ tr2,
             .ok ⟨Status.newInternal ("gateway: error resolving reference:" ++ p), default⟩)
          | (tr2, .panicked m) => (tr ++ [.statCall ref] ++ tr2, .panicked m)
          | (tr2, .ok ri) =>
            (tr ++ [.statCall ref] ++ tr2, .ok ⟨res.status, { ri with path := res.info.path }⟩)
    else if isShareChild cfg p = true then
      let sn := (splitShare p).1
      let sc := (splitShare p).2
      let ref1 := Ref.byPath sn
      match env.stat ref1 with
      | .error _ =>
        (tr ++ [.statCall ref1], .ok ⟨Status.newInternal "gateway: error stating", default⟩)
      | .ok statRes =>
        if statRes.status.code ≠ .ok then
          (tr ++ [.statCall ref1], .ok ⟨Status.newInternal "gateway: error stating", default⟩)
        else
          match checkRef env statRes.info with
          | (tr2, .err _) =>
            (tr ++ [.statCall ref1] ++ tr2, .ok ⟨Status.newInternal "error stating", default⟩)
          | (tr2, .panicked m) => (tr ++ [.statCall ref1] ++ tr2, .panicked m)
          | (tr2, .ok ri) =>
            let ref2 := Ref.byPath (pathJoin [ri.path, sc])
            (tr ++ [.statCall ref1] ++ tr2 ++ [.statCall ref2], GoRes.ofExcept (env.stat ref2))
    else (tr, .panicked ("gateway: stating an unknown path:" ++ p))

/-- svc.delete: find the owning provider and forward. -/
def deleteL (env : Env) (ref : Ref) : OpResult DeleteResponse :=
  match findClient env ref with
  | .error (.notFound _) =>
    ([.findProviderCall ref], .ok ⟨Status.newNotFound "storage provider not found"⟩)
  | .error (.other _) =>
    ([.findProviderCall ref], .ok ⟨Status.newInternal "error finding storage provider"⟩)
  | .ok _ =>
    ([.findProviderCall ref, .provDelete ref],
     GoRes.ofExceptWrap "gateway: error calling Delete:" (env.clientDelete ref))

/-- svc.Delete: the share folder is rejected; a share name is forwarded as is
(unmount); a share child is resolved and rewritten; anything else inside the
shared folder is an assertion failure. -/
def gwDelete (cfg : Config) (env : Env) (ref : Ref) : OpResult DeleteResponse :=
  match getPathR env ref with
  | (tr, .error _) =>
    (tr, .ok ⟨Status.newInternal "gateway: error gettng path for ref"⟩)
  | (tr, .ok p) =>
    if inSharedFolder cfg p = false then
      let r := deleteL env ref
      (tr ++ r.1, r.2)
    else if isSharedFolder cfg p = true then
      (tr, .ok ⟨Status.newInvalidArg "path points to share folder or share name"⟩)
    else if isShareName cfg p = true then
      let r := deleteL env (Ref.byPath p)
      (tr ++ r.1, r.2)
    else if isShareChild cfg p = true then
      let sn := (splitShare p).1
      let sc := (splitShare p).2
      let ref1 := Ref.byPath sn
      match env.stat ref1 with
      | .error _ =>
        (tr ++ [.statCall ref1], .ok ⟨Status.newInternal "gateway: error deleting"⟩)
      | .ok statRes =>
        if statRes.status.code ≠ .ok then
          (tr ++ [.statCall ref1], .ok ⟨Status.newInternal "gateway: error deleting"⟩)
        else if statRes.info.type ≠ .reference then
          (tr ++ [.statCall ref1], .ok ⟨Status.newInternal "gateway: error deleting"⟩)
        else
          match checkRef env statRes.info with
          | (tr2, .err _) =>
            (tr ++ [.statCall ref1] ++ tr2, .ok ⟨Status.newInternal "error creating container"⟩)
          | (tr2, .panicked m) => (tr ++ [.statCall ref1] ++ tr2, .panicked m)
          | (tr2, .ok ri) =>
            let r := deleteL env (Ref.byPath (pathJoin [ri.path, sc]))
            (tr ++ [.statCall ref1] ++ tr2 ++ r.1, r.2)
    else (tr, .panicked ("gateway: delete called on unknown path:" ++ p))

/-- svc.createContainer: find the owning provider and forward. -/
def createContainerL (env : Env) (ref : Ref) : OpResult CreateContainerResponse :=
  match findClient env ref with
  | .error (.notFound _) =>
    ([.findProviderCall ref], .ok ⟨Status.newNotFound "storage provider not found"⟩)
  | .error (.other _) =>
    ([.findProviderCall ref], .ok ⟨Status.newInternal "error finding storage provider"⟩)
  | .ok _ =>
    ([.findProviderCall ref, .provCreateContainer ref],
     GoRes.ofExceptWrap "gateway: error calling CreateContainer:" (env.clientCreateContainer ref))

/-- svc.CreateContainer: the share folder and share names are rejected; a share
child is resolved and rewritten; anything else inside the shared folder is an
assertion failure. -/
def gwCreateContainer (cfg : Config) (env : Env) (ref : Ref) : OpResult CreateContainerResponse :=
  match getPathR env ref with
  | (tr, .error _) =>
    (tr, .ok ⟨Status.newInternal "gateway: error gettng path for ref"⟩)
  | (tr, .ok p) =>
    if inSharedFolder cfg p = false then
      let r := createContainerL env ref
      (tr ++ r.1, r.2)
    else if (isSharedFolder cfg p || isShareName cfg p) = true then
      (tr, .ok ⟨Status.newInvalidArg "path points to share folder or share name"⟩)
    else if isShareChild cfg p = true then
      let sn := (splitShare p).1
      let sc := (splitShare p).2
      let ref1 := Ref.byPath sn
      match env.stat ref1 with
      | .error _ =>
        (tr ++ [.statCall ref1], .ok ⟨Status.newInternal "gateway: error creating container"⟩)
      | .ok statRes =>
        if statRes.status.code ≠ .ok then
          (tr ++ [.statCall ref1], .ok ⟨Status.newInternal "gateway: error creating container"⟩)
        else if statRes.info.type ≠ .reference then
          (tr ++ [.statCall ref1], .ok ⟨Status.newInternal "gateway: error creating container"⟩)
        else
          match checkRef env statRes.info with
          | (tr2, .err _) =>
            (tr ++ [.statCall ref1] ++ tr2, .ok ⟨Status.newInternal "error creating container"⟩)
          | (tr2, .panicked m) => (tr ++ [.statCall ref1] ++ tr2, .panicked m)
          | (tr2, .ok ri) =>
            let r := createContainerL env (Ref.byPath (pathJoin [ri.path, sc]))
            (tr ++ [.statCall ref1] ++ tr2 ++ r.1, r.2)
    else (tr, .panicked ("gateway: create container on unknown path:" ++ p))

/-- svc.move: find source and destination providers; differing addresses are
rejected as unimplemented before any provider client is obtained; otherwise the
move is forwarded to the shared provider. -/
def moveL (env : Env) (src dst : Ref) : OpResult MoveResponse :=
  match env.findProvider src with
  | .error (.notFound _) =>
    ([.findProviderCall src], .ok ⟨Status.newNotFound "source storage provider not found"⟩)
  | .error (.other _) =>
    ([.findProviderCall src], .ok ⟨Status.newInternal "error finding storage provider"⟩)
  | .ok srcP =>
    match env.findProvider dst with
    | .error (.notFound _) =>
      ([.findProviderCall src, .findProviderCall dst],
       .ok ⟨Status.newNotFound "destination storage provider not found"⟩)
    | .error (.other _) =>
      ([.findProviderCall src, .findProviderCall dst],
       .ok ⟨Status.newInternal "error finding storage provider"⟩)
    | .ok dstP =>
      if srcP.address ≠ dstP.address then
        ([.findProviderCall src, .findProviderCall dst],
         .ok ⟨Status.newUnimplemented "gateway: cross storage copy not yet implemented"⟩)
      else
        match env.poolGet srcP.address with
        | .error _ =>
          ([.findProviderCall src, .findProviderCall dst],
           .ok ⟨Status.newInternal ("error connecting to storage provider=" ++ srcP.address)⟩)
        | .ok _ =>
          ([.findProviderCall src, .findProviderCall dst, .provMove srcP.address src dst],
           GoRes.ofExcept (env.clientMove srcP.address src dst))

/-- svc.Move: plain on both sides forwards; share-name to share-name renames the
mount; share-child to share-child within the same share resolves the reference
once and rewrites both sides; everything else is an assertion failure. -/
def gwMove (cfg : Config) (env : Env) (src dst : Ref) : OpResult MoveResponse :=
  match getPathR env src with
  | (tr, .error _) =>
    (tr, .ok ⟨Status.newInternal "gateway: error gettng path for ref"⟩)
  | (tr, .ok p) =>
    match getPathR env dst with
    | (trd, .error _) =>
      (tr ++ trd, .ok ⟨Status.newInternal "gateway: error gettng path for ref"⟩)
    | (trd, .ok dp) =>
      if (inSharedFolder cfg p = false) ∧ (inSharedFolder cfg dp = false) then
        let r := moveL env src dst
        (tr ++ trd ++ r.1, r.2)
      else if (isShareName cfg p && isShareName cfg dp) = true then
        let r := moveL env src dst
        (tr ++ trd ++ r.1, r.2)
      else if (isShareChild cfg p && isShareChild cfg dp) = true then
        let sn := (splitShare p).1
        let sc := (splitShare p).2
        let dsn := (splitShare dp).1
        let dsc := (splitShare dp).2
        if sn ≠ dsn then
          (tr ++ trd, .ok ⟨Status.newInternal "gateway: error moving"⟩)
        else
          let ref1 := Ref.byPath sn
          match env.stat ref1 with
          | .error _ =>
            (tr ++ trd ++ [.statCall ref1], .ok ⟨Status.newInternal "gateway: error moving"⟩)
          | .ok statRes =>
            if statRes.status.code ≠ .ok then
              (tr ++ trd ++ [.statCall ref1], .ok ⟨Status.newInternal "gateway: error moving"⟩)
            else if statRes.info.type ≠ .reference then
              (tr ++ trd ++ [.statCall ref1], .ok ⟨Status.newInternal "gateway: error deleting"⟩)
            else
              match checkRef env statRes.info with
              | (tr2, .err _) =>
                (tr ++ trd ++ [.statCall ref1] ++ tr2, .ok ⟨Status.newInternal "error moving"⟩)
              | (tr2, .panicked m) => (tr ++ trd ++ [.statCall ref1] ++ tr2, .panicked m)
              | (tr2, .ok ri) =>
                let src2 := Ref.byPath (pathJoin [ri.path, sc])
                let dst2 := Ref.byPath (pathJoin [ri.path, dsc])
                let r := moveL env src2 dst2
                (tr ++ trd ++ [.statCall ref1] ++ tr2 ++ r.1, r.2)
      else (tr ++ trd, .panicked ("gateway: move called on unknown path:" ++ p))

/-- svc.initiateFileDownload: find the provider and request the download; when the
provider exposes the endpoint it is returned verbatim with no token; otherwise the
endpoint URL is parsed (an internal status on a malformed URL), signed, and the
response carries the configured data gateway endpoint plus the token. -/
def initiateFileDownloadL (cfg : Config) (env : Env) (ref : Ref) : OpResult GwDownloadResponse :=
  match findClient env ref with
  | .error (.notFound _) =>
    ([.findProviderCall ref], .ok ⟨Status.newNotFound "storage provider not found", "", none⟩)
  | .error (.other _) =>
    ([.findProviderCall ref], .ok ⟨Status.newInternal "error finding storage provider", "", none⟩)
  | .ok _ =>
    match env.clientDownload ref with
    | .error e =>
      ([.findProviderCall ref, .provDownload ref],
       .err ("gateway: error calling InitiateFileDownload:" ++ e))
    | .ok storageRes =>
      if storageRes.expose then
        ([.findProviderCall ref, .provDownload ref],
         .ok ⟨storageRes.status, storageRes.downloadEndpoint, none⟩)
      else
        match env.parseURL storageRes.downloadEndpoint with
        | none =>
          ([.findProviderCall ref, .provDownload ref],
           .ok ⟨Status.newInternal "wrong format for download endpoint", "", none⟩)
        | some target =>
          let token := sign cfg env.macHS256 env.nowExp env.nowIat target
          ([.findProviderCall ref, .provDownload ref],
           .ok ⟨storageRes.status, cfg.dataGatewayEndpoint, some token⟩)

/-- svc.InitiateFileDownload: stats the reference first, then applies the share
dispatch; the share folder and share names are rejected; a share child is resolved
and rewritten before the handoff. -/
def gwInitiateFileDownload (cfg : Config) (env : Env) (ref : Ref) : OpResult GwDownloadResponse :=
  match env.stat ref with
  | .error _ =>
    ([.statCall ref], .ok ⟨Status.newInternal "gateway: error stating ref", "", none⟩)
  | .ok sres =>
    if sres.status.code ≠ .ok then
      if sres.status.code = .notFound then
        ([.statCall ref], .ok ⟨Status.newNotFound "gateway: file not found", "", none⟩)
      else
        ([.statCall ref], .ok ⟨Status.newInternal "gateway: error stating ref", "", none⟩)
    else
      match getPathR env ref with
      | (tr, .error _) =>
        ([.statCall ref] ++ tr, .ok ⟨Status.newInternal "gateway: error gettng path for ref", "", none⟩)
      | (tr, .ok p) =>
        if inSharedFolder cfg p = false then
          let r := initiateFileDownloadL cfg env ref
          ([.statCall ref] ++ tr ++ r.1, r.2)
        else if (isSharedFolder cfg p || isShareName cfg p) = true then
          ([.statCall ref] ++ tr, .ok ⟨Status.newInvalidArg "path points to share folder or share name", "", none⟩)
        else if isShareChild cfg p = true then
          let sn := (splitShare p).1
          let sc := (splitShare p).2
          let ref1 := Ref.byPath sn
          match env.stat ref1 with
          | .error _ =>
            ([.statCall ref] ++ tr ++ [.statCall ref1],
             .ok ⟨Status.newInternal "gateway: error creating container", "", none⟩)
          | .ok statRes =>
            if statRes.status.code ≠ .ok then
              ([.statCall ref] ++ tr ++ [.statCall ref1],
               .ok ⟨Status.newInternal "gateway: error creating container", "", none⟩)
            else if statRes.info.type ≠ .reference then
              ([.statCall ref] ++ tr ++ [.statCall ref1],
               .ok ⟨Status.newInternal "gateway: error creating container", "", none⟩)
            else
              match checkRef env statRes.info with
              | (tr2, .err _) =>
                ([.statCall ref] ++ tr ++ [.statCall ref1] ++ tr2,
                 .ok ⟨Status.newInternal "error creating container", "", none⟩)
              | (tr2, .panicked m) =>
                ([.statCall ref] ++ tr ++ [.statCall ref1] ++ tr2, .panicked m)
              | (tr2, .ok ri) =>
                let r := initiateFileDownloadL cfg env (Ref.byPath (pathJoin [ri.path, sc]))
                ([.statCall ref] ++ tr ++ [.statCall ref1] ++ tr2 ++ r.1, r.2)
        else ([.statCall ref] ++ tr, .panicked ("gateway: download: unknown path:" ++ p))

/-- svc.initiateFileUpload: like the download handoff, but a non-OK provider
status is turned into an internal status before the expose handling. -/
def initiateFileUploadL (cfg : Config) (env : Env) (ref : Ref) : OpResult GwUploadResponse :=
  match findClient env ref with
  | .error (.notFound _) =>
    ([.findProviderCall ref], .ok ⟨Status.newNotFound "storage provider not found", "", none, []⟩)
  | .error (.other _) =>
    ([.findProviderCall ref], .ok ⟨Status.newInternal "error finding storage provider", "", none, []⟩)
  | .ok _ =>
    match env.clientUpload ref with
    | .error e =>
      ([.findProviderCall ref, .provUpload ref],
       .err ("gateway: error calling InitiateFileUpload:" ++ e))
    | .ok storageRes =>
      if storageRes.status.code ≠ .ok then
        ([.findProviderCall ref, .provUpload ref],
         .ok ⟨Status.newInternal "error initiating upload", "", none, []⟩)
      else if storageRes.expose then
        ([.findProviderCall ref, .provUpload ref],
         .ok ⟨storageRes.status, storageRes.uploadEndpoint, none, storageRes.availableChecksums⟩)
      else
        match env.parseURL storageRes.uploadEndpoint with
        | none =>
          ([.findProviderCall ref, .provUpload ref],
           .ok ⟨Status.newInternal "wrong format for upload endpoint", "", none, []⟩)
        | some target =>
          let token := sign cfg env.macHS256 env.nowExp env.nowIat target
          ([.findProviderCall ref, .provUpload ref],
           .ok ⟨storageRes.status, cfg.dataGatewayEndpoint, some token, storageRes.availableChecksums⟩)

/-- svc.InitiateFileUpload: the share folder and share names are rejected; a share
child is resolved and rewritten before the handoff; anything else inside the
shared folder is an assertion failure. -/
def gwInitiateFileUpload (cfg : Config) (env : Env) (ref : Ref) : OpResult GwUploadResponse :=
  match getPathR env ref with
  | (tr, .error _) =>
    (tr, .ok ⟨Status.newInternal "gateway: error gettng path for ref", "", none, []⟩)
  | (tr, .ok p) =>
    if inSharedFolder cfg p = false then
      let r := initiateFileUploadL cfg env ref
      (tr ++ r.1, r.2)
    else if (isSharedFolder cfg p || isShareName cfg p) = true then
      (tr, .ok ⟨Status.newInvalidArg "path points to share folder or share name", "", none, []⟩)
    else if isShareChild cfg p = true then
      let sn := (splitShare p).1
      let sc := (splitShare p).2
      let ref1 := Ref.byPath sn
      match env.stat ref1 with
      | .error _ =>
        (tr ++ [.statCall ref1], .ok ⟨Status.newInternal "gateway: error uploading", "", none, []⟩)
      | .ok statRes =>
        if statRes.status.code ≠ .ok then
          (tr ++ [.statCall ref1], .ok ⟨Status.newInternal "gateway: error uploading", "", none, []⟩)
        else if statRes.info.type ≠ .reference then
          (tr ++ [.statCall ref1], .ok ⟨Status.newInternal "gateway: error uploading", "", none, []⟩)
        else
          match checkRef env statRes.info with
          | (tr2, .err _) =>
            (tr ++ [.statCall ref1] ++ tr2, .ok ⟨Status.newInternal "error creating container", "", none, []⟩)
          | (tr2, .panicked m) => (tr ++ [.statCall ref1] ++ tr2, .panicked m)
          | (tr2, .ok ri) =>
            let r := initiateFileUploadL cfg env (Ref.byPath (pathJoin [ri.path, sc]))
            (tr ++ [.statCall ref1] ++ tr2 ++ r.1, r.2)
    else (tr, .panicked ("gateway: upload: unknown path:" ++ p))

/-! ## The json OCM provider authorizer (pkg/ocm/provider/authorizer/json/json.go) -/

/-- An OCM provider service: the endpoint type name (s.Endpoint.Type.Name, "OCM"
marks the OCM endpoint) and the host. -/
structure OcmService where
  endpointTypeName : String
  host : String
  deriving DecidableEq, Repr

/-- An OCM ProviderInfo as the authorizer reads it: domain and service list. -/
structure OcmProviderInfo where
  domain : String
  services : List OcmService
  deriving DecidableEq, Repr

/-- Authorizer configuration. -/
structure JsonConfig where
  providersFile : String
  verifyRequestHostname : Bool
  deriving DecidableEq, Repr

/-- The per-host DNS cache the authorizer keeps in a *sync.Map; the Go pointer may
be nil, which `Option` records: `none` is the nil pointer, dereferencing it is a
runtime panic. -/
abbrev IPCache := List (String × List String)

/-- sync.Map.Load on the cache. -/
def cacheLoad (c : IPCache) (k : String) : Option (List String) :=
  (c.find? fun kv => kv.1 == k).map fun kv => kv.2

/-- sync.Map.Store on the cache. -/
def cacheStore (c : IPCache) (k : String) (v : List String) : IPCache :=
  (k, v) :: c

/-- The authorizer state: allow-listed providers, the (possibly nil) DNS cache,
and the configuration. -/
structure Authorizer where
  providers : List OcmProviderInfo
  providerIPs : Option IPCache
  conf : JsonConfig
  deriving DecidableEq, Repr

/-- The json authorizer constructor New, success path: the configuration has been
decoded and the providers file unmarshalled into `providers`.  The returned record
sets only `providers` and `conf`; `providerIPs` stays the nil pointer (`none`). -/
def newAuthorizer (providers : List OcmProviderInfo) (conf : JsonConfig) : Authorizer :=
  { providers := providers, providerIPs := none, conf := conf }

/-- Errors returned by IsProviderAllowed (the errtypes constructors of the source). -/
inductive AuthErr where
  | notFound (what : String)
  | notSupported (msg : String)
  | wrapped (msg : String)
  deriving DecidableEq, Repr

/-- The outcome of IsProviderAllowed: success (a nil error), a returned error, or
the runtime panic from dereferencing the nil DNS-cache pointer. -/
inductive AuthOutcome where
  | allowed
  | denied (e : AuthErr)
  | nilMapDeref
  deriving DecidableEq, Repr

/-- getOCMHost: the host of the first service whose endpoint type name is "OCM",
with an https:// or http:// prefix stripped. -/
def getOCMHost (p : OcmProviderInfo) : Except AuthErr String :=
  match p.services.find? (fun s => s.endpointTypeName == "OCM") with
  | some s => .ok (goTrimPre (goTrimPre s.host "https://") "http://")
  | none => .error (.notFound "OCM Host")

/-- IsProviderAllowed: an empty domain is authorized without consulting the
allow-list, a non-empty domain must occur in it; with hostname verification off
the check ends there; otherwise the OCM host is resolved through the DNS cache
(`lookupIP` is the net.LookupIP oracle) and the first service host must be among
the resolved addresses.  The updated cache pointer is returned alongside. -/
def isProviderAllowed (a : Authorizer) (lookupIP : String → Except String (List String))
    (p : OcmProviderInfo) : AuthOutcome × Option IPCache :=
  let providerAuthorized :=
    if p.domain ≠ "" then a.providers.any fun q => q.domain == p.domain
    else true
  if providerAuthorized = false then (.denied (.notFound p.domain), a.providerIPs)
  else if a.conf.verifyRequestHostname = false then (.allowed, a.providerIPs)
  else if p.services.length = 0 then (.denied (.notSupported "No IP provided"), a.providerIPs)
  else
    match getOCMHost p with
    | .error _ => (.denied (.wrapped "json: ocm host not specified for mesh provider"), a.providerIPs)
    | .ok ocmHost =>
      match a.providerIPs with
      | none => (.nilMapDeref, none)
      | some cache =>
        match cacheLoad cache ocmHost with
        | some ipList =>
          if ipList.any fun ip => ip == (p.services.headD ⟨"", ""⟩).host then
            (.allowed, some cache)
          else (.denied (.notFound "OCM Host"), some cache)
        | none =>
          match lookupIP ocmHost with
          | .error _ => (.denied (.wrapped "json: error looking up client IP"), some cache)
          | .ok addrs =>
            let cache2 := cacheStore cache ocmHost addrs
            if addrs.any fun ip => ip == (p.services.headD ⟨"", ""⟩).host then
              (.allowed, some cache2)
            else (.denied (.notFound "OCM Host"), some cache2)

/-! ## Concrete fixtures for witnesses and counterexamples -/

/-- A concrete gateway configuration. -/
def cfgEx : Config :=
  { shareFolder := "MyShares"
    dataGatewayEndpoint := "https://gw.example.org/data"
    transferExpires := 3600
    transferSharedSecret := "secret" }

/-- A base environment whose oracles all fail; scenarios override fields. -/
def envBase : Env :=
  { stat := fun _ => .error "unexpected stat"
    findProvider := fun _ => .error (.other "unexpected find")
    poolGet := fun _ => .ok ()
    clientMove := fun _ _ _ => .error "unexpected move"
    clientDelete := fun _ => .error "unexpected delete"
    clientCreateContainer := fun _ => .error "unexpected create"
    clientDownload := fun _ => .error "unexpected download"
    clientUpload := fun _ => .error "unexpected upload"
    parseURL := fun s => some s
    macHS256 := fun sec msg => sec ++ "|" ++ msg
    nowExp := 1000
    nowIat := 1000 }

/-! ## Helper lemmas -/

/-- A successful split pins the number of path segments to `i`. -/
theorem split_len {cfg : Config} {p : String} {i : Nat} (h : split cfg p i = true) :
    (splitPath p).length = i := by
  unfold split at h
  simp only [Bool.and_eq_true, decide_eq_true_eq] at h
  exact h.1.2

/-! ## C4 — classification shapes -/

/-- C4 (amended): the classification used by the gateway assigns every path at
most one shape: the three share shapes are pairwise disjoint (they pin different
segment counts) and Plain is exactly the complement of the shared-folder prefix
test; but totality into the four shapes fails: a path is classified iff it is
outside the shared-folder prefix or matches one of the three share shapes, and a
path with the shared-folder string as a mere prefix (such as /home/<ShareFolder>X)
is inside the prefix yet matches none of them. -/
theorem classify_shapes_disjoint_not_total (cfg : Config) (p : String) :
    (isSharedFolder cfg p = true → isShareName cfg p = false ∧ isShareChild cfg p = false) ∧
    (isShareName cfg p = true → isShareChild cfg p = false) ∧
    (classify cfg p = .plain ↔ inSharedFolder cfg p = false) ∧
    (classify cfg p ≠ .unknown ↔
      (inSharedFolder cfg p = false ∨ isSharedFolder cfg p = true ∨
        isShareName cfg p = true ∨ isShareChild cfg p = true)) := by
  refine ⟨?_, ?_, ?_, ?_⟩
  · intro h2
    have l2 : (splitPath p).length = 2 := split_len h2
    constructor
    · cases h3 : isShareName cfg p
      · rfl
      · have l3 : (splitPath p).length = 3 := split_len h3
        omega
    · cases h4 : isShareChild cfg p
      · rfl
      · have l4 : (splitPath p).length = 4 := split_len h4
        omega
  · intro h3
    have l3 : (splitPath p).length = 3 := split_len h3
    cases h4 : isShareChild cfg p
    · rfl
    · have l4 : (splitPath p).length = 4 := split_len h4
      omega
  · unfold classify
    cases h1 : inSharedFolder cfg p <;> cases h2 : isSharedFolder cfg p <;>
      cases h3 : isShareName cfg p <;> cases h4 : isShareChild cfg p <;> simp
  · unfold classify
    cases h1 : inSharedFolder cfg p <;> cases h2 : isSharedFolder cfg p <;>
      cases h3 : isShareName cfg p <;> cases h4 : isShareChild cfg p <;> simp

/-- C4 witness: on the concrete configuration, /home/MyShares/photos is a share
name, hence not a share child, and is classified (not unknown). -/
theorem classify_shapes_witness :
    isShareChild cfgEx "/home/MyShares/photos" = false ∧
    classify cfgEx "/home/MyShares/photos" ≠ Shape.unknown := by
  have h := classify_shapes_disjoint_not_total cfgEx "/home/MyShares/photos"
  exact ⟨h.2.1 (by decide), h.2.2.2.mpr (Or.inr (Or.inr (Or.inl (by decide))))⟩

/-- C4 counterexample: /home/MySharesX has the configured shared folder string as
a mere prefix, so it passes the shared-folder prefix test, yet it matches none of
the three share shapes and is not Plain either: it falls into no shape at all,
refuting totality of the four shapes. -/
theorem classify_totality_counterexample :
    inSharedFolder cfgEx "/home/MySharesX" = true ∧
    isSharedFolder cfgEx "/home/MySharesX" = false ∧
    isShareName cfgEx "/home/MySharesX" = false ∧
    isShareChild cfgEx "/home/MySharesX" = false ∧
    classify cfgEx "/home/MySharesX" = Shape.unknown := by
  decide

/-! ## C1 — Stat on a share name -/

/-- C1 (amended): on a Stat whose effective path is a share name, when the stat of
the share name succeeds with a reference that resolves, the returned info is the
resolved target info with the path replaced by the path field of the share-name
stat response (so the response path equals the request path exactly when the
provider echoed the request path, and all other fields come from the target). -/
theorem stat_shareName_keeps_first_stat_path
    (cfg : Config) (env : Env) (p : String) (res0 : StatResponse)
    (tr2 : List Call) (ri : ResourceInfo)
    (hp : p ≠ "")
    (hin : inSharedFolder cfg p = true)
    (hf : isSharedFolder cfg p = false)
    (hn : isShareName cfg p = true)
    (hstat : env.stat (Ref.byPath p) = .ok res0)
    (hok : res0.status.code = .ok)
    (hty : res0.info.type = .reference)
    (hchk : checkRef env res0.info = (tr2, .ok ri)) :
    gwStat cfg env (Ref.byPath p) =
      ([Call.statCall (Ref.byPath p)] ++ tr2,
        .ok ⟨res0.status, { ri with path := res0.info.path }⟩) ∧
    ({ ri with path := res0.info.path } : ResourceInfo).type = ri.type ∧
    ({ ri with path := res0.info.path } : ResourceInfo).target = ri.target ∧
    ({ ri with path := res0.info.path } : ResourceInfo).etag = ri.etag ∧
    ({ ri with path := res0.info.path } : ResourceInfo).size = ri.size ∧
    ({ ri with path := res0.info.path } : ResourceInfo).mtime = ri.mtime ∧
    (res0.info.path = p → ({ ri with path := res0.info.path } : ResourceInfo).path = p) := by
  refine ⟨?_, rfl, rfl, rfl, rfl, rfl, fun h => h⟩
  unfold gwStat getPathR
  simp only [Ref.getPath, ne_eq, hp, not_false_eq_true, if_true, reduceIte,
    hin, hf, hn, hstat, hok, hty, hchk]
  simp

/-- C1 witness: a concrete share-name Stat where the provider echoes the request
path; the response keeps that path and takes every other field from the target. -/
def riRefEcho : ResourceInfo :=
  { type := .reference, path := "/home/MyShares/photos", target := "cs3:abc/def"
    etag := "refEtag", size := 1, mtime := 10 }

/-- The resolved target resource used by the C1 scenarios. -/
def riTarget : ResourceInfo :=
  { type := .container, path := "/eos/user/b/photos", target := ""
    etag := "targetEtag", size := 7, mtime := 42 }

/-- Environment for the C1 witness: stat of the share name echoes the request
path; stat of the cs3 id yields the target. -/
def envEcho : Env :=
  { envBase with stat := fun r =>
      if r = Ref.byPath "/home/MyShares/photos" then .ok ⟨Status.newOK, riRefEcho⟩
      else if r = Ref.byId "abc" "def" then .ok ⟨Status.newOK, riTarget⟩
      else .error "unexpected" }

theorem stat_shareName_keeps_first_stat_path_witness :
    gwStat cfgEx envEcho (Ref.byPath "/home/MyShares/photos") =
      ([Call.statCall (Ref.byPath "/home/MyShares/photos"),
        Call.statCall (Ref.byId "abc" "def")],
       .ok ⟨Status.newOK, { riTarget with path := "/home/MyShares/photos" }⟩) := by
  have h := stat_shareName_keeps_first_stat_path cfgEx envEcho "/home/MyShares/photos"
    ⟨Status.newOK, riRefEcho⟩ [Call.statCall (Ref.byId "abc" "def")] riTarget
    (by decide) (by decide) (by decide) (by decide) rfl rfl rfl (by decide)
  simpa using h.1

/-- The share-name stat response of the C1 counterexample reports a path that is
neither the request path nor the target path. -/
def riRefSkew : ResourceInfo :=
  { type := .reference, path := "/prov/reported/photos", target := "cs3:abc/def"
    etag := "refEtag", size := 1, mtime := 10 }

/-- Environment for the C1 counterexample: stat of the share name reports a
different path from the request. -/
def envSkew : Env :=
  { envBase with stat := fun r =>
      if r = Ref.byPath "/home/MyShares/photos" then .ok ⟨Status.newOK, riRefSkew⟩
      else if r = Ref.byId "abc" "def" then .ok ⟨Status.newOK, riTarget⟩
      else .error "unexpected" }

/-- C1 counterexample: the source resets the returned path to the path field of
the share-name stat response, not to the request path; when the provider reports
a different path, the returned path differs from the request path. -/
theorem stat_shareName_path_counterexample :
    (gwStat cfgEx envSkew (Ref.byPath "/home/MyShares/photos")).2 =
      .ok ⟨Status.newOK, { riTarget with path := "/prov/reported/photos" }⟩ ∧
    "/prov/reported/photos" ≠ "/home/MyShares/photos" := by
  constructor
  · decide
  · decide

/-! ## C2 — rejections on the share folder and share names -/

/-- C2 (amended): CreateContainer, InitiateFileUpload and InitiateFileDownload on
an effective path classified as the share folder or a share name are rejected with
an invalid-argument status carrying "path points to share folder or share name",
and nothing is forwarded to any provider (the returned traces hold no provider
call; the download entry point stats the reference first, so its rejection
presumes that stat succeeded). -/
theorem share_folder_and_name_rejections
    (cfg : Config) (env : Env) (p : String) (sres : StatResponse)
    (hp : p ≠ "")
    (hin : inSharedFolder cfg p = true)
    (hfn : (isSharedFolder cfg p || isShareName cfg p) = true) :
    gwCreateContainer cfg env (Ref.byPath p) =
      ([], .ok ⟨Status.newInvalidArg "path points to share folder or share name"⟩) ∧
    gwInitiateFileUpload cfg env (Ref.byPath p) =
      ([], .ok ⟨Status.newInvalidArg "path points to share folder or share name", "", none, []⟩) ∧
    (env.stat (Ref.byPath p) = .ok sres → sres.status.code = .ok →
      gwInitiateFileDownload cfg env (Ref.byPath p) =
        ([Call.statCall (Ref.byPath p)],
         .ok ⟨Status.newInvalidArg "path points to share folder or share name", "", none⟩)) := by
  refine ⟨?_, ?_, ?_⟩
  · unfold gwCreateContainer getPathR
    simp only [Ref.getPath, ne_eq, hp, not_false_eq_true, if_true, reduceIte, hin, hfn]
    simp
  · unfold gwInitiateFileUpload getPathR
    simp only [Ref.getPath, ne_eq, hp, not_false_eq_true, if_true, reduceIte, hin, hfn]
    simp
  · intro hstat hok
    unfold gwInitiateFileDownload getPathR
    simp only [Ref.getPath, ne_eq, hp, not_false_eq_true, if_true, reduceIte,
      hstat, hok, hin, hfn]
    simp

/-- Environment whose gateway stat always succeeds with an OK status. -/
def envStatOk : Env :=
  { envBase with stat := fun _ => .ok ⟨Status.newOK, default⟩ }

/-- C2 witness: the concrete share name /home/MyShares/photos is rejected by all
three entry points with the invalid-argument status and an empty forward trace. -/
theorem share_folder_and_name_rejections_witness :
    gwInitiateFileDownload cfgEx envStatOk (Ref.byPath "/home/MyShares/photos") =
      ([Call.statCall (Ref.byPath "/home/MyShares/photos")],
       .ok ⟨Status.newInvalidArg "path points to share folder or share name", "", none⟩) ∧
    gwCreateContainer cfgEx envStatOk (Ref.byPath "/home/MyShares/photos") =
      ([], .ok ⟨Status.newInvalidArg "path points to share folder or share name"⟩) ∧
    gwInitiateFileUpload cfgEx envStatOk (Ref.byPath "/home/MyShares/photos") =
      ([], .ok ⟨Status.newInvalidArg "path points to share folder or share name", "", none, []⟩) := by
  have h := share_folder_and_name_rejections cfgEx envStatOk "/home/MyShares/photos"
    ⟨Status.newOK, default⟩ (by decide) (by decide) (by decide)
  exact ⟨h.2.2 rfl rfl, h.1, h.2.1⟩

/-- C2 counterexample: the rejection status the source returns carries code
invalid-argument (status.NewInvalidArg), not permission-denied: the claim names
the wrong code. -/
theorem share_rejection_code_counterexample :
    (gwCreateContainer cfgEx envBase (Ref.byPath "/home/MyShares/photos")).2 =
      .ok ⟨Status.newInvalidArg "path points to share folder or share name"⟩ ∧
    (Status.newInvalidArg "path points to share folder or share name").code =
      Code.invalidArgument ∧
    Code.invalidArgument ≠ Code.permissionDenied := by
  decide

/-! ## C5 — paths inside the shared folder matching no shape -/

/-- C5 (amended): an operation (Stat, Delete, Move) whose effective path lies
inside the shared-folder prefix but matches none of the shapes of its dispatch
chain forwards nothing to any provider, but it does not return an internal-status
response either: the source asserts, aborting with a panic that names the path. -/
theorem unknown_share_path_panics
    (cfg : Config) (env : Env) (p dp : String)
    (hp : p ≠ "") (hdp : dp ≠ "")
    (hin : inSharedFolder cfg p = true)
    (hf : isSharedFolder cfg p = false)
    (hn : isShareName cfg p = false)
    (hc : isShareChild cfg p = false) :
    gwStat cfg env (Ref.byPath p) =
      ([], .panicked ("gateway: stating an unknown path:" ++ p)) ∧
    gwDelete cfg env (Ref.byPath p) =
      ([], .panicked ("gateway: delete called on unknown path:" ++ p)) ∧
    gwMove cfg env (Ref.byPath p) (Ref.byPath dp) =
      ([], .panicked ("gateway: move called on unknown path:" ++ p)) := by
  refine ⟨?_, ?_, ?_⟩
  · unfold gwStat getPathR
    simp only [Ref.getPath, ne_eq, hp, not_false_eq_true, if_true, reduceIte,
      hin, hf, hn, hc]
    simp
  · unfold gwDelete getPathR
    simp only [Ref.getPath, ne_eq, hp, not_false_eq_true, if_true, reduceIte,
      hin, hf, hn, hc]
    simp
  · unfold gwMove getPathR
    simp only [Ref.getPath, ne_eq, hp, hdp, not_false_eq_true, if_true, reduceIte,
      hin, hf, hn, hc]
    simp

/-- C5 witness: a concrete in-shared-folder path matching no shape makes Stat,
Delete and Move abort with a panic and an empty call trace. -/
theorem unknown_share_path_panics_witness :
    gwStat cfgEx envBase (Ref.byPath "/home/MySharesY") =
      ([], .panicked "gateway: stating an unknown path:/home/MySharesY") ∧
    gwDelete cfgEx envBase (Ref.byPath "/home/MySharesY") =
      ([], .panicked "gateway: delete called on unknown path:/home/MySharesY") ∧
    gwMove cfgEx envBase (Ref.byPath "/home/MySharesY") (Ref.byPath "/d") =
      ([], .panicked "gateway: move called on unknown path:/home/MySharesY") := by
  have h := unknown_share_path_panics cfgEx envBase "/home/MySharesY" "/d"
    (by decide) (by decide) (by decide) (by decide) (by decide) (by decide)
  simpa using h

/-- C5 counterexample: on /home/MySharesX the operations do not return a response
carrying an internal status: they panic (the Go process aborts), refuting the
claim that the request is answered with an internal status without aborting. -/
theorem unknown_share_path_counterexample :
    gwStat cfgEx envBase (Ref.byPath "/home/MySharesX") =
      ([], .panicked "gateway: stating an unknown path:/home/MySharesX") ∧
    gwDelete cfgEx envBase (Ref.byPath "/home/MySharesX") =
      ([], .panicked "gateway: delete called on unknown path:/home/MySharesX") ∧
    gwMove cfgEx envBase (Ref.byPath "/home/MySharesX") (Ref.byPath "/d") =
      ([], .panicked "gateway: move called on unknown path:/home/MySharesX") := by
  decide

/-! ## C3 — reference chains are rejected after one hop -/

/-- C3: resolving a resource of type reference whose cs3 target id stats (exactly
one gateway stat, visible as the singleton call trace) to a resource that is again
of type reference fails with an error and performs no further hop; a Stat on a
share name backed by such a reference answers with an internal status, its trace
holding only the share-name stat and the single resolution stat. -/
theorem reference_chain_rejected
    (cfg : Config) (env : Env) (p : String) (res0 res2 : StatResponse)
    (opq sid oid : String)
    (hp : p ≠ "")
    (hin : inSharedFolder cfg p = true)
    (hf : isSharedFolder cfg p = false)
    (hn : isShareName cfg p = true)
    (hstat : env.stat (Ref.byPath p) = .ok res0)
    (hok : res0.status.code = .ok)
    (hty : res0.info.type = .reference)
    (htne : res0.info.target ≠ "")
    (hsch : splitScheme res0.info.target = ("cs3", opq))
    (hparts : goSplitNStr 2 opq = [sid, oid])
    (hstat2 : env.stat (Ref.byId sid oid) = .ok res2)
    (hok2 : res2.status.code = .ok)
    (hty2 : res2.info.type = .reference) :
    checkRef env res0.info =
      ([Call.statCall (Ref.byId sid oid)],
       .err "gateway: error the target of a reference cannot be another reference") ∧
    gwStat cfg env (Ref.byPath p) =
      ([Call.statCall (Ref.byPath p), Call.statCall (Ref.byId sid oid)],
       .ok ⟨Status.newInternal ("gateway: error resolving reference:" ++ p), default⟩) ∧
    (Status.newInternal ("gateway: error resolving reference:" ++ p)).code = Code.internal := by
  have hchk : checkRef env res0.info =
      ([Call.statCall (Ref.byId sid oid)],
       .err "gateway: error the target of a reference cannot be another reference") := by
    unfold checkRef handleRef handleCS3Ref
    simp only [hty, htne, hsch, hparts, ne_eq, not_false_eq_true, if_true, reduceIte]
    simp [hstat2, hok2, hty2]
  refine ⟨hchk, ?_, rfl⟩
  unfold gwStat getPathR
  simp only [Ref.getPath, ne_eq, hp, not_false_eq_true, if_true, reduceIte,
    hin, hf, hn, hstat, hok, hty, hchk]
  simp

/-- The chained reference of the C3 scenario: the share name resolves to this
resource, whose own target is yet another reference. -/
def riChainMid : ResourceInfo :=
  { type := .reference, path := "/eos/mid", target := "cs3:x/y"
    etag := "midEtag", size := 2, mtime := 20 }

/-- Environment of the C3 witness: stat of the share name yields a reference to
cs3:abc/def, which stats to another reference. -/
def envChain : Env :=
  { envBase with stat := fun r =>
      if r = Ref.byPath "/home/MyShares/photos" then .ok ⟨Status.newOK, riRefEcho⟩
      else if r = Ref.byId "abc" "def" then .ok ⟨Status.newOK, riChainMid⟩
      else .error "unexpected" }

/-- C3 witness: a concrete Stat on a share name whose reference chains to another
reference fails after one resolution hop with an internal status. -/
theorem reference_chain_rejected_witness :
    checkRef envChain riRefEcho =
      ([Call.statCall (Ref.byId "abc" "def")],
       .err "gateway: error the target of a reference cannot be another reference") ∧
    gwStat cfgEx envChain (Ref.byPath "/home/MyShares/photos") =
      ([Call.statCall (Ref.byPath "/home/MyShares/photos"),
        Call.statCall (Ref.byId "abc" "def")],
       .ok ⟨Status.newInternal
              "gateway: error resolving reference:/home/MyShares/photos", default⟩) := by
  have h := reference_chain_rejected cfgEx envChain "/home/MyShares/photos"
    ⟨Status.newOK, riRefEcho⟩ ⟨Status.newOK, riChainMid⟩ "abc/def" "abc" "def"
    (by decide) (by decide) (by decide) (by decide) rfl rfl rfl (by decide)
    (by decide) (by decide) rfl rfl rfl
  exact ⟨h.1, h.2.1⟩

/-! ## C6 — cross-provider moves -/

/-- C6: when the resolved source and destination providers differ in address, move
answers with an unimplemented status whose message ends in "cross storage copy not
yet implemented", and the call trace holds only the two registry lookups: no
provider Move is invoked. -/
theorem cross_storage_move_unimplemented
    (env : Env) (src dst : Ref) (srcP dstP : ProviderInfo)
    (hs : env.findProvider src = .ok srcP)
    (hd : env.findProvider dst = .ok dstP)
    (hne : srcP.address ≠ dstP.address) :
    moveL env src dst =
      ([Call.findProviderCall src, Call.findProviderCall dst],
       .ok ⟨Status.newUnimplemented "gateway: cross storage copy not yet implemented"⟩) ∧
    (Status.newUnimplemented "gateway: cross storage copy not yet implemented").code =
      Code.unimplemented ∧
    "cross storage copy not yet implemented".data.isSuffixOf
      "gateway: cross storage copy not yet implemented".data = true ∧
    ([Call.findProviderCall src, Call.findProviderCall dst].all
      fun c => ! c.isForward) = true := by
  refine ⟨?_, rfl, by decide, by simp [Call.isForward]⟩
  unfold moveL
  simp only [hs, hd, hne, ne_eq, not_false_eq_true, if_true, reduceIte]

/-- Environment of the C6 witness: the registry owns the source at provider p1 and
the destination at provider p2. -/
def envTwoProviders : Env :=
  { envBase with findProvider := fun r =>
      if r = Ref.byPath "/eos/user/a/f" then .ok ⟨"p1.example.org:443"⟩
      else if r = Ref.byPath "/eos/user/b/f" then .ok ⟨"p2.example.org:443"⟩
      else .error (.other "unexpected") }

/-- C6 witness: a concrete move whose endpoints live on different providers is
answered unimplemented without any provider Move. -/
theorem cross_storage_move_unimplemented_witness :
    moveL envTwoProviders (Ref.byPath "/eos/user/a/f") (Ref.byPath "/eos/user/b/f") =
      ([Call.findProviderCall (Ref.byPath "/eos/user/a/f"),
        Call.findProviderCall (Ref.byPath "/eos/user/b/f")],
       .ok ⟨Status.newUnimplemented "gateway: cross storage copy not yet implemented"⟩) := by
  have h := cross_storage_move_unimplemented envTwoProviders
    (Ref.byPath "/eos/user/a/f") (Ref.byPath "/eos/user/b/f")
    ⟨"p1.example.org:443"⟩ ⟨"p2.example.org:443"⟩ rfl rfl (by decide)
  exact h.1

/-! ## C8 — transfer token round trip -/

/-- C8: a token produced by sign validates under the same shared secret with the
HS256 algorithm and decodes to exactly the claims target = the input, audience
"reva", the issued-at clock read, and an expiry equal to issued-at plus the
configured TTL, strictly after issued-at (for a positive TTL, with both clock
reads in the same second). -/
theorem sign_verify_roundtrip
    (cfg : Config) (mac : String → String → String) (nowE nowI : Int) (target : String)
    (hclock : nowE = nowI) (httl : 0 < cfg.transferExpires) :
    verifyToken mac cfg.transferSharedSecret (sign cfg mac nowE nowI target) =
      some { target := target, audience := "reva"
             expiresAt := nowI + cfg.transferExpires, issuedAt := nowI } ∧
    (sign cfg mac nowE nowI target).alg = "HS256" ∧
    nowI < nowI + cfg.transferExpires := by
  subst hclock
  refine ⟨?_, rfl, by omega⟩
  simp [sign, verifyToken]

/-- C8 witness: a concrete signature round trip. -/
theorem sign_verify_roundtrip_witness :
    verifyToken envBase.macHS256 cfgEx.transferSharedSecret
        (sign cfgEx envBase.macHS256 1000 1000 "https://data.p1/blob/xyz") =
      some { target := "https://data.p1/blob/xyz", audience := "reva"
             expiresAt := 4600, issuedAt := 1000 } ∧
    (sign cfgEx envBase.macHS256 1000 1000 "https://data.p1/blob/xyz").alg = "HS256" ∧
    (1000 : Int) < 4600 := by
  have h := sign_verify_roundtrip cfgEx envBase.macHS256 1000 1000
    "https://data.p1/blob/xyz" rfl (by decide)
  refine ⟨?_, h.2.1, by norm_num⟩
  have h1 := h.1
  norm_num [cfgEx] at h1
  exact h1

/-! ## C7 — data-plane handoff -/

/-- C7 (amended): for a download (resp. upload) whose provider returned an
endpoint URL and an expose flag: with expose the provider URL is returned
verbatim and no token is attached; without expose, when the URL parses (and
serialises back to itself) the returned endpoint is the configured data-gateway
endpoint and the token decodes under the shared secret to claims whose target is
the provider URL; when the URL is malformed the call answers with an internal
status ("wrong format for ... endpoint"), not invalid-argument. -/
theorem transfer_handoff_endpoints
    (cfg : Config) (env : Env) (ref : Ref) (pinfo : ProviderInfo)
    (dres : StorageDownloadResponse) (ures : StorageUploadResponse)
    (hfind : findClient env ref = .ok pinfo)
    (hdl : env.clientDownload ref = .ok dres)
    (hul : env.clientUpload ref = .ok ures)
    (hulok : ures.status.code = .ok) :
    (dres.expose = true →
      initiateFileDownloadL cfg env ref =
        ([Call.findProviderCall ref, Call.provDownload ref],
         .ok ⟨dres.status, dres.downloadEndpoint, none⟩)) ∧
    (dres.expose = false →
      env.parseURL dres.downloadEndpoint = some dres.downloadEndpoint →
      initiateFileDownloadL cfg env ref =
        ([Call.findProviderCall ref, Call.provDownload ref],
         .ok ⟨dres.status, cfg.dataGatewayEndpoint,
              some (sign cfg env.macHS256 env.nowExp env.nowIat dres.downloadEndpoint)⟩) ∧
      verifyToken env.macHS256 cfg.transferSharedSecret
          (sign cfg env.macHS256 env.nowExp env.nowIat dres.downloadEndpoint) =
        some { target := dres.downloadEndpoint, audience := "reva"
               expiresAt := env.nowExp + cfg.transferExpires, issuedAt := env.nowIat }) ∧
    (dres.expose = false →
      env.parseURL dres.downloadEndpoint = none →
      (initiateFileDownloadL cfg env ref).2 =
        .ok ⟨Status.newInternal "wrong format for download endpoint", "", none⟩) ∧
    (ures.expose = true →
      initiateFileUploadL cfg env ref =
        ([Call.findProviderCall ref, Call.provUpload ref],
         .ok ⟨ures.status, ures.uploadEndpoint, none, ures.availableChecksums⟩)) ∧
    (ures.expose = false →
      env.parseURL ures.uploadEndpoint = some ures.uploadEndpoint →
      initiateFileUploadL cfg env ref =
        ([Call.findProviderCall ref, Call.provUpload ref],
         .ok ⟨ures.status, cfg.dataGatewayEndpoint,
              some (sign cfg env.macHS256 env.nowExp env.nowIat ures.uploadEndpoint),
              ures.availableChecksums⟩) ∧
      verifyToken env.macHS256 cfg.transferSharedSecret
          (sign cfg env.macHS256 env.nowExp env.nowIat ures.uploadEndpoint) =
        some { target := ures.uploadEndpoint, audience := "reva"
               expiresAt := env.nowExp + cfg.transferExpires, issuedAt := env.nowIat }) ∧
    (ures.expose = false →
      env.parseURL ures.uploadEndpoint = none →
      (initiateFileUploadL cfg env ref).2 =
        .ok ⟨Status.newInternal "wrong format for upload endpoint", "", none, []⟩) := by
  refine ⟨?_, ?_, ?_, ?_, ?_, ?_⟩
  · intro hexp
    unfold initiateFileDownloadL
    simp [hfind, hdl, hexp]
  · intro hexp hurl
    constructor
    · unfold initiateFileDownloadL
      simp [hfind, hdl, hexp, hurl]
    · simp [sign, verifyToken]
  · intro hexp hurl
    unfold initiateFileDownloadL
    simp [hfind, hdl, hexp, hurl]
  · intro hexp
    unfold initiateFileUploadL
    simp [hfind, hul, hulok, hexp]
  · intro hexp hurl
    constructor
    · unfold initiateFileUploadL
      simp [hfind, hul, hulok, hexp, hurl]
    · simp [sign, verifyToken]
  · intro hexp hurl
    unfold initiateFileUploadL
    simp [hfind, hul, hulok, hexp, hurl]

/-- Environment of the C7 witness: one provider, a download endpoint that is not
exposed, and an upload endpoint that is exposed. -/
def envHandoff : Env :=
  { envBase with
    findProvider := fun _ => .ok ⟨"p1.example.org:443"⟩
    clientDownload := fun _ => .ok ⟨Status.newOK, "https://data.p1/blob/xyz", false⟩
    clientUpload := fun _ => .ok ⟨Status.newOK, "https://data.p1/up/xyz", true, ["md5"]⟩ }

/-- C7 witness: on the concrete environment the download handoff replaces the
endpoint with the data gateway and signs the provider URL, while the exposed
upload endpoint is returned verbatim without a token. -/
theorem transfer_handoff_endpoints_witness :
    initiateFileDownloadL cfgEx envHandoff (Ref.byPath "/eos/f") =
      ([Call.findProviderCall (Ref.byPath "/eos/f"), Call.provDownload (Ref.byPath "/eos/f")],
       .ok ⟨Status.newOK, "https://gw.example.org/data",
            some (sign cfgEx envHandoff.macHS256 1000 1000 "https://data.p1/blob/xyz")⟩) ∧
    verifyToken envHandoff.macHS256 "secret"
        (sign cfgEx envHandoff.macHS256 1000 1000 "https://data.p1/blob/xyz") =
      some { target := "https://data.p1/blob/xyz", audience := "reva"
             expiresAt := 4600, issuedAt := 1000 } ∧
    initiateFileUploadL cfgEx envHandoff (Ref.byPath "/eos/f") =
      ([Call.findProviderCall (Ref.byPath "/eos/f"), Call.provUpload (Ref.byPath "/eos/f")],
       .ok ⟨Status.newOK, "https://data.p1/up/xyz", none, ["md5"]⟩) := by
  have h := transfer_handoff_endpoints cfgEx envHandoff (Ref.byPath "/eos/f")
    ⟨"p1.example.org:443"⟩ ⟨Status.newOK, "https://data.p1/blob/xyz", false⟩
    ⟨Status.newOK, "https://data.p1/up/xyz", true, ["md5"]⟩ rfl rfl rfl rfl
  refine ⟨?_, ?_, h.2.2.2.1 rfl⟩
  · have h2 := (h.2.1 rfl rfl).1
    simpa [cfgEx] using h2
  · have h3 := (h.2.1 rfl rfl).2
    norm_num [cfgEx, envHandoff, envBase] at h3
    exact h3

/-- Environment of the C7 counterexample: the unexposed download endpoint does not
parse as a URL. -/
def envBadURL : Env :=
  { envBase with
    findProvider := fun _ => .ok ⟨"p1.example.org:443"⟩
    clientDownload := fun _ => .ok ⟨Status.newOK, "://missing-scheme", false⟩
    parseURL := fun _ => none }

/-- C7 counterexample: a malformed endpoint URL makes the handoff answer with an
internal status, not the invalid-argument status the claim names. -/
theorem transfer_handoff_malformed_counterexample :
    (initiateFileDownloadL cfgEx envBadURL (Ref.byPath "/eos/f")).2 =
      .ok ⟨Status.newInternal "wrong format for download endpoint", "", none⟩ ∧
    (Status.newInternal "wrong format for download endpoint").code = Code.internal ∧
    Code.internal ≠ Code.invalidArgument := by
  refine ⟨?_, rfl, by decide⟩
  decide

/-! ## C9 — the nil DNS cache of the json authorizer -/

/-- C9 (amended): every authorizer built by New carries the nil providerIPs
pointer (no code path initialises it), and every IsProviderAllowed call that
reaches the DNS-cache lookup (hostname verification on, the domain empty or
allow-listed, a non-empty service list that includes an OCM-typed endpoint)
dereferences that nil map instead of reading or populating a cache. -/
theorem new_nil_providerIPs_deref
    (providers : List OcmProviderInfo) (conf : JsonConfig)
    (lookupIP : String → Except String (List String)) (p : OcmProviderInfo)
    (svc : OcmService)
    (hv : conf.verifyRequestHostname = true)
    (hdom : p.domain = "" ∨ (providers.any fun q => q.domain == p.domain) = true)
    (hsvc : p.services.length ≠ 0)
    (hocm : (p.services.find? fun s => s.endpointTypeName == "OCM") = some svc) :
    (newAuthorizer providers conf).providerIPs = none ∧
    (isProviderAllowed (newAuthorizer providers conf) lookupIP p).1 =
      AuthOutcome.nilMapDeref := by
  refine ⟨rfl, ?_⟩
  rcases hdom with hdom | hdom
  · simp [isProviderAllowed, newAuthorizer, getOCMHost, hdom, hv, hsvc, hocm]
  · by_cases hd : p.domain = ""
    · simp [isProviderAllowed, newAuthorizer, getOCMHost, hd, hv, hsvc, hocm]
    · simp [isProviderAllowed, newAuthorizer, getOCMHost, hd, hdom, hv, hsvc, hocm]

/-- C9 witness: a concrete authorizer built by New, asked about a provider with an
empty domain and one OCM service, dereferences the nil cache. -/
theorem new_nil_providerIPs_deref_witness :
    (newAuthorizer [] ⟨"providers.json", true⟩).providerIPs = none ∧
    (isProviderAllowed (newAuthorizer [] ⟨"providers.json", true⟩)
        (fun _ => .error "no dns")
        ⟨"", [⟨"OCM", "1.2.3.4"⟩]⟩).1 = AuthOutcome.nilMapDeref := by
  have h := new_nil_providerIPs_deref [] ⟨"providers.json", true⟩
    (fun _ => .error "no dns") ⟨"", [⟨"OCM", "1.2.3.4"⟩]⟩ ⟨"OCM", "1.2.3.4"⟩
    rfl (Or.inl rfl) (by decide) rfl
  exact h

/-- C9 counterexample: a non-empty service list without an OCM-typed endpoint
never reaches the DNS-cache lookup: the call returns the missing-OCM-host error
instead of dereferencing the nil map, so the claim as stated (any non-empty
Services list) is too broad. -/
theorem nil_cache_no_ocm_counterexample :
    (isProviderAllowed (newAuthorizer [] ⟨"providers.json", true⟩)
        (fun _ => .error "no dns")
        ⟨"", [⟨"WEBDAV", "1.2.3.4"⟩]⟩).1 =
      AuthOutcome.denied (.wrapped "json: ocm host not specified for mesh provider") ∧
    AuthOutcome.denied (.wrapped "json: ocm host not specified for mesh provider") ≠
      AuthOutcome.nilMapDeref := by
  decide

/-! ## C10 — empty domains bypass the allow-list -/

/-- C10: a provider whose domain is empty is treated as authorized without
consulting the configured allow-list (the outcome is the same for any providers
list), and with hostname verification disabled the call returns success. -/
theorem empty_domain_authorized
    (a : Authorizer) (lookupIP : String → Except String (List String))
    (p : OcmProviderInfo) (ps2 : List OcmProviderInfo)
    (hdom : p.domain = "") :
    (a.conf.verifyRequestHostname = false →
      isProviderAllowed a lookupIP p = (.allowed, a.providerIPs)) ∧
    (isProviderAllowed { a with providers := ps2 } lookupIP p).1 =
      (isProviderAllowed a lookupIP p).1 := by
  constructor
  · intro hv
    simp [isProviderAllowed, hdom, hv]
  · simp [isProviderAllowed, hdom]

/-- C10 witness: with hostname verification off, a provider with an empty domain
is allowed, and the outcome does not change when the allow-list is replaced. -/
theorem empty_domain_authorized_witness :
    isProviderAllowed (newAuthorizer [⟨"cern.ch", []⟩] ⟨"providers.json", false⟩)
        (fun _ => .error "no dns") ⟨"", []⟩ = (.allowed, none) ∧
    (isProviderAllowed
        { newAuthorizer [⟨"cern.ch", []⟩] ⟨"providers.json", false⟩ with providers := [] }
        (fun _ => .error "no dns") ⟨"", []⟩).1 =
      (isProviderAllowed (newAuthorizer [⟨"cern.ch", []⟩] ⟨"providers.json", false⟩)
        (fun _ => .error "no dns") ⟨"", []⟩).1 := by
  have h := empty_domain_authorized (newAuthorizer [⟨"cern.ch", []⟩] ⟨"providers.json", false⟩)
    (fun _ => .error "no dns") ⟨"", []⟩ [] rfl
  exact ⟨h.1 rfl, h.2⟩

end Reva
